import Mathlib

/-!
Shallow embedding of the server-list-item card components of the Outline
client (`src/www/views/servers_view/server_list_item/`): the shared
display/event derivation `getSharedComponents`, the row card and the hero
card renders, modelled as executable Lean functions producing records of the
observable outputs (derived strings, dispatched events, and the bindings the
templates attach).
-/

namespace ServersView

/-- Modelled from the spec: the connection-state enumeration is defined in the
`server_connection_indicator` module, which is not among the provided source
files; spec section 3 lists its members as disconnected, connecting, connected,
reconnecting, disconnecting. -/
inductive ServerConnectionState where
  | disconnected
  | connecting
  | connected
  | reconnecting
  | disconnecting
deriving DecidableEq, BEq, Repr

/-- Modelled from the spec: the string form of a connection state, as
interpolated into template attributes and localization keys such as
`${this.server.connectionState}-server-state`. -/
def ServerConnectionState.toKey : ServerConnectionState → String
  | .disconnected => "disconnected"
  | .connecting => "connecting"
  | .connected => "connected"
  | .reconnecting => "reconnecting"
  | .disconnecting => "disconnecting"

namespace ServerListItemEvent

/-- Model of `ServerListItemEvent.CONNECT` (index.ts line 19). -/
def CONNECT : String := "ConnectPressed"

/-- Model of `ServerListItemEvent.DISCONNECT` (index.ts line 20). -/
def DISCONNECT : String := "DisconnectPressed"

/-- Model of `ServerListItemEvent.FORGET` (index.ts line 21). -/
def FORGET : String := "ForgetPressed"

/-- Model of `ServerListItemEvent.RENAME` (index.ts line 22). -/
def RENAME : String := "ShowServerRename"

end ServerListItemEvent

/-- Model of interface `ServerListItem` (index.ts lines 25-33).
`errorMessageId` is declared optional (`errorMessageId?: string`) and is
modelled as `Option String`. `name` is declared `string`, but the view applies
the nullish-coalescing operator `??` to it (part_000 line 121), so the runtime
value may be `undefined` and is likewise modelled as `Option String`. -/
structure ServerListItem where
  disabled : Bool
  errorMessageId : Option String
  isOutlineServer : Bool
  address : String
  id : String
  name : Option String
  connectionState : ServerConnectionState
deriving DecidableEq, Repr

/-- JavaScript truthiness of an optional string value: `Boolean(x)` is `false`
for `undefined` and for the empty string, `true` for any other string. -/
def jsTruthy : Option String → Bool
  | none => false
  | some s => decide (s ≠ "")

/-- Model of `isConnectedState` (part_000 lines 106-109): membership of the
connection state in `[CONNECTING, CONNECTED, RECONNECTING]`. -/
def isConnectedState (connectionState : ServerConnectionState) : Bool :=
  [ServerConnectionState.connecting, ServerConnectionState.connected,
    ServerConnectionState.reconnecting].contains connectionState

/-- Model of `hasErrorMessage` (part_000 line 117): `Boolean(server.errorMessageId)`. -/
def hasErrorMessage (server : ServerListItem) : Bool :=
  jsTruthy server.errorMessageId

/-- Derived display strings of `getSharedComponents` (part_000 lines 119-126). -/
structure Messages where
  serverName : String
  error : Option String
  connectButton : String
deriving DecidableEq, Repr

/-- Model of the `messages` record (part_000 lines 119-126). The JS expression
`hasErrorMessage && localizer(server.errorMessageId)` evaluates to `false` or
to a string; `none` models the `false` case (no error string produced). -/
def messages (localizer : String → String) (server : ServerListItem) : Messages :=
  { serverName := server.name.getD
      (localizer (if server.isOutlineServer then "server-default-name-outline"
        else "server-default-name"))
    error := if hasErrorMessage server then
        some (localizer (server.errorMessageId.getD "")) else none
    connectButton := localizer
      (if isConnectedState server.connectionState then "disconnect-button-label"
        else "connect-button-label") }

/-- Observable content of a dispatched `CustomEvent`: its event-type name, the
`detail.serverId` payload, and the `bubbles` and `composed` flags. -/
structure CustomEventModel where
  name : String
  serverId : String
  bubbles : Bool
  composed : Bool
deriving DecidableEq, Repr

/-- Model of the event dispatched by `dispatchers.beginRename`
(part_000 lines 130-133). -/
def beginRenameEvent (server : ServerListItem) : CustomEventModel :=
  { name := ServerListItemEvent.RENAME, serverId := server.id,
    bubbles := true, composed := true }

/-- Model of the event dispatched by `dispatchers.forget`
(part_000 lines 134-137). -/
def forgetEvent (server : ServerListItem) : CustomEventModel :=
  { name := ServerListItemEvent.FORGET, serverId := server.id,
    bubbles := true, composed := true }

/-- Model of the event dispatched by `dispatchers.connectToggle`
(part_000 lines 138-144): `DISCONNECT` when `isConnectedState`, else `CONNECT`. -/
def connectToggleEvent (server : ServerListItem) : CustomEventModel :=
  { name := if isConnectedState server.connectionState then
        ServerListItemEvent.DISCONNECT else ServerListItemEvent.CONNECT
    serverId := server.id, bubbles := true, composed := true }

/-- The events the three dispatcher closures of `getSharedComponents`
(part_000 lines 129-145) can dispatch for a given server item. -/
def dispatcherEvents (server : ServerListItem) : List CustomEventModel :=
  [beginRenameEvent server, forgetEvent server, connectToggleEvent server]

/-- Observable content of `elements.metadataText` (part_000 lines 151-158). -/
structure MetadataText where
  serverName : String
  address : String
deriving DecidableEq, Repr

/-- Model of `elements.metadataText` (part_000 lines 151-158). -/
def metadataTextModel (localizer : String → String) (server : ServerListItem) :
    MetadataText :=
  { serverName := (messages localizer server).serverName
    address := server.address }

/-- Observable content of `elements.menu` (part_000 lines 159-167): the two
list-item labels and the events their click handlers dispatch. -/
structure MenuModel where
  renameLabel : String
  forgetLabel : String
  renameClickEvent : CustomEventModel
  forgetClickEvent : CustomEventModel
deriving DecidableEq, Repr

/-- Model of `elements.menu` (part_000 lines 159-167). -/
def menuModel (localizer : String → String) (server : ServerListItem) : MenuModel :=
  { renameLabel := localizer "server-rename"
    forgetLabel := localizer "server-forget"
    renameClickEvent := beginRenameEvent server
    forgetClickEvent := forgetEvent server }

/-- Observable content of `elements.footer` (part_000 lines 168-178): the
error span content, the button label, the button's disabled flag, and the
event the button's click handler dispatches. -/
structure Footer where
  errorText : Option String
  buttonLabel : String
  buttonDisabled : Bool
  buttonClickEvent : CustomEventModel
deriving DecidableEq, Repr

/-- Model of `elements.footer` (part_000 lines 168-178). -/
def footerModel (localizer : String → String) (server : ServerListItem) : Footer :=
  { errorText := (messages localizer server).error
    buttonLabel := (messages localizer server).connectButton
    buttonDisabled := hasErrorMessage server
    buttonClickEvent := connectToggleEvent server }

/-- Observable output of `ServerRowCard.render` (part_000 lines 215-228). -/
structure RowCardRender where
  indicatorState : ServerConnectionState
  indicatorRootPath : String
  metadata : MetadataText
  menu : MenuModel
  footer : Footer
deriving DecidableEq, Repr

/-- Model of `ServerRowCard.render` (part_000 lines 215-228). -/
def ServerRowCard.render (localizer : String → String) (rootPath : String)
    (server : ServerListItem) : RowCardRender :=
  { indicatorState := server.connectionState
    indicatorRootPath := rootPath
    metadata := metadataTextModel localizer server
    menu := menuModel localizer server
    footer := footerModel localizer server }

/-- Observable effects of the hero card keyboard handler on one key event:
whether `preventDefault` and `stopImmediatePropagation` were called, and the
event dispatched, if any. -/
structure KeyEventEffects where
  preventDefaultCalled : Bool
  stopImmediatePropagationCalled : Bool
  dispatched : Option CustomEventModel
deriving DecidableEq, Repr

/-- Model of `connectToggleKeyboardDispatcher` (part_000 lines 284-291):
always calls `preventDefault` and `stopImmediatePropagation`; calls
`dispatchers.connectToggle` exactly when `event.key === 'Enter'`. -/
def connectToggleKeyboardDispatcher (server : ServerListItem) (key : String) :
    KeyEventEffects :=
  { preventDefaultCalled := true
    stopImmediatePropagationCalled := true
    dispatched := if key = "Enter" then some (connectToggleEvent server) else none }

/-- Model of the hero card indicator's click binding (part_000 line 300):
the bound value is `!this.server.errorMessageId && dispatchers.connectToggle`,
so a listener is attached (and clicking dispatches the toggle event) exactly
when `errorMessageId` is falsy; otherwise the bound value is the non-function
`false` and no listener is attached. -/
def heroIndicatorClickEvent (server : ServerListItem) : Option CustomEventModel :=
  if jsTruthy server.errorMessageId then none else some (connectToggleEvent server)

/-- Observable output of `ServerHeroCard.render` (part_000 lines 280-313). -/
structure HeroCardRender where
  metadata : MetadataText
  menu : MenuModel
  indicatorClickEvent : Option CustomEventModel
  indicatorKeydown : String → KeyEventEffects
  indicatorState : ServerConnectionState
  indicatorId : String
  indicatorRootPath : String
  indicatorTitle : String
  connectionLabel : String
  footer : Footer

/-- Model of `ServerHeroCard.render` (part_000 lines 280-313). -/
def ServerHeroCard.render (localizer : String → String) (rootPath : String)
    (server : ServerListItem) : HeroCardRender :=
  { metadata := metadataTextModel localizer server
    menu := menuModel localizer server
    indicatorClickEvent := heroIndicatorClickEvent server
    indicatorKeydown := connectToggleKeyboardDispatcher server
    indicatorState := server.connectionState
    indicatorId := (messages localizer server).connectButton
    indicatorRootPath := rootPath
    indicatorTitle := localizer (server.connectionState.toKey ++ "-server-state")
    connectionLabel := localizer (server.connectionState.toKey ++ "-server-state")
    footer := footerModel localizer server }

/-- A concrete localization function used by witnesses and counterexamples. -/
def exLocalizer : String → String := fun key => "msg:" ++ key

/-- A concrete server item in the connected state with an explicit name. -/
def exampleServer : ServerListItem :=
  { disabled := false, errorMessageId := none, isOutlineServer := true,
    address := "203.0.113.10:443", id := "server-1", name := some "Home",
    connectionState := ServerConnectionState.connected }

/-- The example server with only its `disabled` flag flipped. -/
def exampleServerDisabled : ServerListItem :=
  { exampleServer with disabled := true }

/-- A concrete server item with a non-empty `errorMessageId` and no name. -/
def serverWithError : ServerListItem :=
  { disabled := false, errorMessageId := some "error-key",
    isOutlineServer := false, address := "198.51.100.7:8388", id := "server-2",
    name := none, connectionState := ServerConnectionState.disconnected }

/-- A concrete server item whose `errorMessageId` is present but empty. -/
def serverWithEmptyError : ServerListItem :=
  { disabled := false, errorMessageId := some "", isOutlineServer := false,
    address := "192.0.2.5:1080", id := "server-3", name := some "Work",
    connectionState := ServerConnectionState.connected }

/-- The example server with a present-but-empty name. -/
def serverEmptyName : ServerListItem :=
  { exampleServer with name := some "" }

/-- Characterization of `isConnectedState`: it holds exactly on the three
states listed in the source. -/
theorem isConnectedState_true_iff (cs : ServerConnectionState) :
    isConnectedState cs = true ↔
      (cs = ServerConnectionState.connecting ∨
        cs = ServerConnectionState.connected ∨
        cs = ServerConnectionState.reconnecting) := by
  cases cs <;> decide

/-- C1: for every server item, `dispatchers.connectToggle` dispatches the
`DisconnectPressed` event exactly when the connection state is one of
connecting, connected, reconnecting, and the `ConnectPressed` event for every
other connection state. -/
theorem C1_connectToggle_event_choice (server : ServerListItem) :
    ((connectToggleEvent server).name = ServerListItemEvent.DISCONNECT ↔
      (server.connectionState = ServerConnectionState.connecting ∨
        server.connectionState = ServerConnectionState.connected ∨
        server.connectionState = ServerConnectionState.reconnecting)) ∧
    ((connectToggleEvent server).name = ServerListItemEvent.CONNECT ↔
      ¬(server.connectionState = ServerConnectionState.connecting ∨
        server.connectionState = ServerConnectionState.connected ∨
        server.connectionState = ServerConnectionState.reconnecting)) := by
  cases h : server.connectionState <;>
    simp [connectToggleEvent, isConnectedState, ServerListItemEvent.DISCONNECT,
      ServerListItemEvent.CONNECT, h] <;> decide

/-- C1 witness: at a concrete connected server the toggle dispatches
`DisconnectPressed`. -/
theorem C1_connectToggle_event_choice_witness :
    (connectToggleEvent exampleServer).name = ServerListItemEvent.DISCONNECT :=
  (C1_connectToggle_event_choice exampleServer).1.mpr (Or.inr (Or.inl rfl))

/-- C2 counterexample: at a concrete server whose `errorMessageId` is present,
pressing Enter on the hero card's connection indicator still dispatches the
connect/disconnect toggle event, so the Enter activation path is not
suppressed by the error. -/
theorem C2_counterexample_enter_not_suppressed :
    serverWithError.errorMessageId.isSome = true ∧
    ((ServerHeroCard.render exLocalizer "root" serverWithError).indicatorKeydown
        "Enter").dispatched = some (connectToggleEvent serverWithError) := by
  exact ⟨rfl, rfl⟩

/-- C2 amended: in the hero card, for a server item whose `errorMessageId` is
truthy (present and non-empty), the click path is suppressed (no click listener
is attached to the indicator, so clicking dispatches no event), but the
Enter-key path is not suppressed: pressing Enter on the indicator dispatches
the connect/disconnect toggle event regardless of the error. -/
theorem C2_amended_hero_suppression (localizer : String → String)
    (rootPath : String) (server : ServerListItem)
    (h : jsTruthy server.errorMessageId = true) :
    (ServerHeroCard.render localizer rootPath server).indicatorClickEvent = none ∧
    ((ServerHeroCard.render localizer rootPath server).indicatorKeydown
        "Enter").dispatched = some (connectToggleEvent server) := by
  refine ⟨?_, rfl⟩
  simp [ServerHeroCard.render, heroIndicatorClickEvent, h]

/-- C2 amended witness: the amended statement evaluated at the concrete server
with a non-empty error. -/
theorem C2_amended_hero_suppression_witness :
    jsTruthy serverWithError.errorMessageId = true ∧
    ((ServerHeroCard.render exLocalizer "root" serverWithError).indicatorClickEvent
        = none ∧
      ((ServerHeroCard.render exLocalizer "root" serverWithError).indicatorKeydown
          "Enter").dispatched = some (connectToggleEvent serverWithError)) :=
  ⟨by decide,
    C2_amended_hero_suppression exLocalizer "root" serverWithError (by decide)⟩

/-- C3 counterexample: at a concrete server whose `errorMessageId` is set to
the empty string, `errorMessageId` is present yet no error string is produced,
because the view tests JavaScript truthiness (`Boolean(server.errorMessageId)`)
rather than presence. -/
theorem C3_counterexample_empty_error_id :
    serverWithEmptyError.errorMessageId.isSome = true ∧
    (messages exLocalizer serverWithEmptyError).error = none := by
  exact ⟨rfl, rfl⟩

/-- C3 amended: the rendered error string is shown iff `errorMessageId` is
present and non-empty (truthy); when shown it equals the localizer applied to
`errorMessageId`; when `errorMessageId` is absent or empty no error string is
produced; and the footer's error span shows exactly this string. -/
theorem C3_amended_error_string (localizer : String → String)
    (server : ServerListItem) :
    ((messages localizer server).error.isSome = jsTruthy server.errorMessageId) ∧
    (∀ s, server.errorMessageId = some s → s ≠ "" →
      (messages localizer server).error = some (localizer s)) ∧
    (jsTruthy server.errorMessageId = false →
      (messages localizer server).error = none) ∧
    (footerModel localizer server).errorText = (messages localizer server).error := by
  refine ⟨?_, ?_, ?_, rfl⟩
  · cases h : server.errorMessageId with
    | none => simp [messages, hasErrorMessage, jsTruthy, h]
    | some s =>
      by_cases hs : s = "" <;>
        simp [messages, hasErrorMessage, jsTruthy, h, hs]
  · intro s hs hne
    simp [messages, hasErrorMessage, jsTruthy, hs, hne]
  · intro h
    simp [messages, hasErrorMessage, h]

/-- C3 amended witness: the amended statement evaluated at the concrete server
with the non-empty error key, whose error string is the localized key. -/
theorem C3_amended_error_string_witness :
    serverWithError.errorMessageId = some "error-key" ∧
    (messages exLocalizer serverWithError).error =
      some (exLocalizer "error-key") :=
  ⟨rfl, (C3_amended_error_string exLocalizer serverWithError).2.1 "error-key" rfl
    (by decide)⟩

/-- C4 counterexample: at a concrete server whose `errorMessageId` is set to
the empty string, an error is present by the claim's reading, yet the footer's
connect/disconnect button is not disabled. -/
theorem C4_counterexample_empty_error_id :
    serverWithEmptyError.errorMessageId.isSome = true ∧
    (footerModel exLocalizer serverWithEmptyError).buttonDisabled = false := by
  exact ⟨rfl, rfl⟩

/-- C4 amended: in both the row card and the hero card, the footer's
connect/disconnect button is disabled iff `errorMessageId` is present and
non-empty (truthy). -/
theorem C4_amended_button_disabled (localizer : String → String)
    (rootPath : String) (server : ServerListItem) :
    (ServerRowCard.render localizer rootPath server).footer.buttonDisabled =
      jsTruthy server.errorMessageId ∧
    (ServerHeroCard.render localizer rootPath server).footer.buttonDisabled =
      jsTruthy server.errorMessageId ∧
    ((footerModel localizer server).buttonDisabled = true ↔
      ∃ s, server.errorMessageId = some s ∧ s ≠ "") := by
  refine ⟨rfl, rfl, ?_⟩
  cases h : server.errorMessageId with
  | none => simp [footerModel, hasErrorMessage, jsTruthy, h]
  | some s => simp [footerModel, hasErrorMessage, jsTruthy, h]

/-- C4 amended witness: at the concrete server with a non-empty error the
button is disabled in both cards. -/
theorem C4_amended_button_disabled_witness :
    (ServerRowCard.render exLocalizer "root" serverWithError).footer.buttonDisabled
        = jsTruthy serverWithError.errorMessageId ∧
    (ServerHeroCard.render exLocalizer "root" serverWithError).footer.buttonDisabled
        = jsTruthy serverWithError.errorMessageId ∧
    ((footerModel exLocalizer serverWithError).buttonDisabled = true ↔
      ∃ s, serverWithError.errorMessageId = some s ∧ s ≠ "") :=
  C4_amended_button_disabled exLocalizer "root" serverWithError

/-- C5: the displayed server name is the explicit name when one is present;
otherwise it is `localizer "server-default-name-outline"` when
`isOutlineServer` is true and `localizer "server-default-name"` when it is
false; the two cases are mutually exclusive. -/
theorem C5_server_name_fallback (localizer : String → String)
    (server : ServerListItem) :
    (∀ n, server.name = some n → (messages localizer server).serverName = n) ∧
    (server.name = none → server.isOutlineServer = true →
      (messages localizer server).serverName =
        localizer "server-default-name-outline") ∧
    (server.name = none → server.isOutlineServer = false →
      (messages localizer server).serverName = localizer "server-default-name") := by
  refine ⟨?_, ?_, ?_⟩
  · intro n hn
    simp [messages, hn]
  · intro hn ho
    simp [messages, hn, ho]
  · intro hn ho
    simp [messages, hn, ho]

/-- C5 witness: the explicit-name case at a named server, and both fallback
cases at nameless servers. -/
theorem C5_server_name_fallback_witness :
    (messages exLocalizer exampleServer).serverName = "Home" ∧
    (messages exLocalizer serverWithError).serverName =
      exLocalizer "server-default-name" ∧
    (messages exLocalizer { serverWithError with isOutlineServer := true }).serverName
      = exLocalizer "server-default-name-outline" :=
  ⟨(C5_server_name_fallback exLocalizer exampleServer).1 "Home" rfl,
    (C5_server_name_fallback exLocalizer serverWithError).2.2 rfl rfl,
    (C5_server_name_fallback exLocalizer
      { serverWithError with isOutlineServer := true }).2.1 rfl rfl⟩

/-- C6: provided the two localized button labels differ, the connect button
label equals `localizer "disconnect-button-label"` exactly when the connection
state is one of connecting, connected, reconnecting, and equals
`localizer "connect-button-label"` otherwise. -/
theorem C6_connect_button_label (localizer : String → String)
    (server : ServerListItem)
    (h : localizer "disconnect-button-label" ≠ localizer "connect-button-label") :
    ((messages localizer server).connectButton =
        localizer "disconnect-button-label" ↔
      (server.connectionState = ServerConnectionState.connecting ∨
        server.connectionState = ServerConnectionState.connected ∨
        server.connectionState = ServerConnectionState.reconnecting)) ∧
    ((messages localizer server).connectButton = localizer "connect-button-label" ↔
      ¬(server.connectionState = ServerConnectionState.connecting ∨
        server.connectionState = ServerConnectionState.connected ∨
        server.connectionState = ServerConnectionState.reconnecting)) := by
  have h' : localizer "connect-button-label" ≠ localizer "disconnect-button-label" :=
    fun hEq => h hEq.symm
  have key := isConnectedState_true_iff server.connectionState
  have hbtn : (messages localizer server).connectButton =
      localizer (if isConnectedState server.connectionState then
        "disconnect-button-label" else "connect-button-label") := rfl
  by_cases hcs : isConnectedState server.connectionState = true
  · rw [hbtn, if_pos hcs]
    exact ⟨iff_of_true rfl (key.mp hcs),
      iff_of_false h (not_not_intro (key.mp hcs))⟩
  · rw [hbtn, if_neg hcs]
    have hp : ¬(server.connectionState = ServerConnectionState.connecting ∨
        server.connectionState = ServerConnectionState.connected ∨
        server.connectionState = ServerConnectionState.reconnecting) :=
      fun hp => hcs (key.mpr hp)
    exact ⟨iff_of_false h' hp, iff_of_true rfl hp⟩

/-- C6 witness: at the concrete connected server with the example localizer the
label is the localized disconnect label. -/
theorem C6_connect_button_label_witness :
    (messages exLocalizer exampleServer).connectButton =
      exLocalizer "disconnect-button-label" :=
  (C6_connect_button_label exLocalizer exampleServer (by decide)).1.mpr
    (Or.inr (Or.inl rfl))

/-- C7: every event any of the dispatcher closures dispatches has one of the
four event names `ConnectPressed`, `DisconnectPressed`, `ForgetPressed`,
`ShowServerRename`, carries `detail.serverId` equal to the server item's id,
and has `bubbles` and `composed` both true. -/
theorem C7_dispatched_events_shape (server : ServerListItem)
    (e : CustomEventModel) (h : e ∈ dispatcherEvents server) :
    (e.name = ServerListItemEvent.CONNECT ∨
      e.name = ServerListItemEvent.DISCONNECT ∨
      e.name = ServerListItemEvent.FORGET ∨
      e.name = ServerListItemEvent.RENAME) ∧
    e.serverId = server.id ∧ e.bubbles = true ∧ e.composed = true := by
  simp [dispatcherEvents] at h
  rcases h with h | h | h <;> subst h
  · exact ⟨Or.inr (Or.inr (Or.inr rfl)), rfl, rfl, rfl⟩
  · exact ⟨Or.inr (Or.inr (Or.inl rfl)), rfl, rfl, rfl⟩
  · refine ⟨?_, rfl, rfl, rfl⟩
    by_cases hc : isConnectedState server.connectionState
    · exact Or.inr (Or.inl (by simp [connectToggleEvent, hc]))
    · exact Or.inl (by simp [connectToggleEvent, hc])

/-- C7 witness: the rename dispatcher's event at a concrete server has the
required name, payload and flags. -/
theorem C7_dispatched_events_shape_witness :
    ((beginRenameEvent exampleServer).name = ServerListItemEvent.CONNECT ∨
      (beginRenameEvent exampleServer).name = ServerListItemEvent.DISCONNECT ∨
      (beginRenameEvent exampleServer).name = ServerListItemEvent.FORGET ∨
      (beginRenameEvent exampleServer).name = ServerListItemEvent.RENAME) ∧
    (beginRenameEvent exampleServer).serverId = exampleServer.id ∧
    (beginRenameEvent exampleServer).bubbles = true ∧
    (beginRenameEvent exampleServer).composed = true :=
  C7_dispatched_events_shape exampleServer (beginRenameEvent exampleServer)
    (by simp [dispatcherEvents])

/-- C8: the `disabled` field has no influence on this component layer: two
server items that agree on every other field produce identical derived
messages, identical dispatcher events, and identical row-card and hero-card
renders. -/
theorem C8_disabled_noninterference (localizer : String → String)
    (rootPath : String) (s1 s2 : ServerListItem)
    (he : s1.errorMessageId = s2.errorMessageId)
    (ho : s1.isOutlineServer = s2.isOutlineServer)
    (ha : s1.address = s2.address) (hi : s1.id = s2.id)
    (hn : s1.name = s2.name) (hc : s1.connectionState = s2.connectionState) :
    messages localizer s1 = messages localizer s2 ∧
    dispatcherEvents s1 = dispatcherEvents s2 ∧
    ServerRowCard.render localizer rootPath s1 =
      ServerRowCard.render localizer rootPath s2 ∧
    ServerHeroCard.render localizer rootPath s1 =
      ServerHeroCard.render localizer rootPath s2 := by
  obtain ⟨d1, e1, o1, a1, i1, n1, c1⟩ := s1
  obtain ⟨d2, e2, o2, a2, i2, n2, c2⟩ := s2
  simp only at he ho ha hi hn hc
  subst he; subst ho; subst ha; subst hi; subst hn; subst hc
  exact ⟨rfl, rfl, rfl, rfl⟩

/-- C8 witness: flipping only `disabled` on the concrete example server leaves
every observable output unchanged. -/
theorem C8_disabled_noninterference_witness :
    messages exLocalizer exampleServer = messages exLocalizer exampleServerDisabled ∧
    dispatcherEvents exampleServer = dispatcherEvents exampleServerDisabled ∧
    ServerRowCard.render exLocalizer "root" exampleServer =
      ServerRowCard.render exLocalizer "root" exampleServerDisabled ∧
    ServerHeroCard.render exLocalizer "root" exampleServer =
      ServerHeroCard.render exLocalizer "root" exampleServerDisabled :=
  C8_disabled_noninterference exLocalizer "root" exampleServer
    exampleServerDisabled rfl rfl rfl rfl rfl rfl

/-- C9: for every key event the hero card's keyboard handler calls
`preventDefault` and `stopImmediatePropagation`, dispatches the
connect/disconnect toggle event exactly when the key is Enter, and dispatches
nothing for any other key. -/
theorem C9_keyboard_handler (localizer : String → String) (rootPath : String)
    (server : ServerListItem) (key : String) :
    ((ServerHeroCard.render localizer rootPath server).indicatorKeydown
        key).preventDefaultCalled = true ∧
    ((ServerHeroCard.render localizer rootPath server).indicatorKeydown
        key).stopImmediatePropagationCalled = true ∧
    (key = "Enter" →
      ((ServerHeroCard.render localizer rootPath server).indicatorKeydown
          key).dispatched = some (connectToggleEvent server)) ∧
    (key ≠ "Enter" →
      ((ServerHeroCard.render localizer rootPath server).indicatorKeydown
          key).dispatched = none) := by
  refine ⟨rfl, rfl, ?_, ?_⟩
  · intro hk
    simp [ServerHeroCard.render, connectToggleKeyboardDispatcher, hk]
  · intro hk
    simp [ServerHeroCard.render, connectToggleKeyboardDispatcher, hk]

/-- C9 witness: Enter dispatches the toggle and the key a does not, at the
concrete example server. -/
theorem C9_keyboard_handler_witness :
    ((ServerHeroCard.render exLocalizer "root" exampleServer).indicatorKeydown
        "Enter").dispatched = some (connectToggleEvent exampleServer) ∧
    ((ServerHeroCard.render exLocalizer "root" exampleServer).indicatorKeydown
        "a").dispatched = none :=
  ⟨(C9_keyboard_handler exLocalizer "root" exampleServer "Enter").2.2.1 rfl,
    (C9_keyboard_handler exLocalizer "root" exampleServer "a").2.2.2 (by decide)⟩

/-- C10: a present-but-empty name is displayed as the empty string itself, not
as the localized default: for any localizer whose value on a key is non-empty,
the displayed name differs from that localized value. -/
theorem C10_empty_name_no_fallback (localizer : String → String)
    (server : ServerListItem) (h : server.name = some "") :
    (messages localizer server).serverName = "" ∧
    (∀ key, localizer key ≠ "" →
      (messages localizer server).serverName ≠ localizer key) := by
  have hs : (messages localizer server).serverName = "" := by simp [messages, h]
  exact ⟨hs, fun key hk => by rw [hs]; exact fun hEq => hk hEq.symm⟩

/-- C10 witness: the concrete server with an empty name displays the empty
string, which differs from the localized outline default. -/
theorem C10_empty_name_no_fallback_witness :
    (messages exLocalizer serverEmptyName).serverName = "" ∧
    (messages exLocalizer serverEmptyName).serverName ≠
      exLocalizer "server-default-name-outline" :=
  ⟨(C10_empty_name_no_fallback exLocalizer serverEmptyName rfl).1,
    (C10_empty_name_no_fallback exLocalizer serverEmptyName rfl).2
      "server-default-name-outline" (by decide)⟩

end ServersView
